import Mathlib

/-!
Shallow embedding of the `larner-dev/auth` credential store
(`src/src/models/Credentials.ts` and the variant in `src/unnamed/part_000`).

JavaScript strings that are manipulated character-by-character (bearer
tokens, secrets, passwords) are modelled as `List Char`; opaque string
fields compared only for equality (`user_id`) stay `String`.  Timestamps
(`Date`) are modelled as `Int` milliseconds since the epoch.  The bcrypt
collaborator is a black-box `Hasher` structure, the `crypto.randomBytes`
collaborator is modelled by passing the drawn bytes as an explicit input,
and the `@larner.dev/db` `Model` base class is modelled as a generic row
store (`Store`) per the collaborator contract: `fetch`, `save`,
`saveAndFetch`, `hardDelete`, each taking an optional transaction handle.
Every operation additionally records the storage calls it performed (and
the transaction handle each call was given) as a trace of `Effect`s.
-/

/-- JavaScript strings handled character-wise are `List Char`. -/
abbrev Str := List Char

/-! ## Character and numeral utilities (JS `split`, `parseInt`, number→string) -/

/-- Characters treated as whitespace by JS `parseInt` (the common ASCII set). -/
def isWS (c : Char) : Bool :=
  c.toNat = 32 || c.toNat = 9 || c.toNat = 10 || c.toNat = 13 || c.toNat = 11 || c.toNat = 12

/-- Decimal digit test (`'0'`..`'9'`). -/
def isDigit (c : Char) : Bool :=
  48 ≤ c.toNat && c.toNat ≤ 57

/-- Hex digit test (`0-9a-fA-F`). -/
def isHexDigit (c : Char) : Bool :=
  isDigit c || (97 ≤ c.toNat && c.toNat ≤ 102) || (65 ≤ c.toNat && c.toNat ≤ 70)

/-- Numeric value of a decimal digit character. -/
def digitVal (c : Char) : Nat := c.toNat - 48

/-- Numeric value of a hex digit character. -/
def hexVal (c : Char) : Nat :=
  if isDigit c then c.toNat - 48 else if 97 ≤ c.toNat then c.toNat - 87 else c.toNat - 55

/-- JS `string.split(".")`: splits on every `'.'`, keeping empty segments
(`"".split(".") = [""]`, `"a..b".split(".") = ["a","","b"]`). -/
def splitOnDot : Str → List Str
  | [] => [[]]
  | c :: rest =>
    if c = '.' then [] :: splitOnDot rest
    else
      match splitOnDot rest with
      | [] => [[c]]
      | p :: ps => (c :: p) :: ps

/-- Parse a run of decimal digits (maximal prefix), JS-`parseInt` style:
`none` when the run is empty, otherwise the value of the digit prefix
(trailing junk is ignored, as in `parseInt("5x") = 5`). -/
def parseNatDec (l : Str) : Option Nat :=
  let ds := l.takeWhile isDigit
  if ds.isEmpty then none
  else some (ds.foldl (fun a c => a * 10 + digitVal c) 0)

/-- Parse a run of hex digits (maximal prefix), `none` when empty. -/
def parseNatHex (l : Str) : Option Nat :=
  let ds := l.takeWhile isHexDigit
  if ds.isEmpty then none
  else some (ds.foldl (fun a c => a * 16 + hexVal c) 0)

/-- Unsigned part of JS `parseInt(s)` (radix unspecified): a `0x`/`0X`
prefix selects hex, otherwise decimal. -/
def parseIntCore (u : Str) : Option Nat :=
  match u with
  | c0 :: c1 :: r =>
    if c0 = '0' ∧ (c1 = 'x' ∨ c1 = 'X') then parseNatHex r else parseNatDec u
  | _ => parseNatDec u

/-- JS `parseInt(s)` with no radix argument: skip leading whitespace, an
optional sign, then parse a `0x`-hex or decimal digit prefix; `none`
models `NaN`. -/
def parseInt (s : Str) : Option Int :=
  if (s.dropWhile isWS).head? = some '-' then
    (parseIntCore (s.dropWhile isWS).tail).map (fun n => -(n : Int))
  else if (s.dropWhile isWS).head? = some '+' then
    (parseIntCore (s.dropWhile isWS).tail).map (fun n => (n : Int))
  else if (s.dropWhile isWS).isEmpty then none
  else (parseIntCore (s.dropWhile isWS)).map (fun n => (n : Int))

/-- Decimal digit character for a value `0`..`9`. -/
def digitChar (k : Nat) : Char :=
  if k = 0 then '0' else if k = 1 then '1' else if k = 2 then '2'
  else if k = 3 then '3' else if k = 4 then '4' else if k = 5 then '5'
  else if k = 6 then '6' else if k = 7 then '7' else if k = 8 then '8' else '9'

/-- JS number-to-string for a nonnegative integer (template literal
`${cred.id}`): standard decimal rendering. -/
def natDigits (n : Nat) : Str :=
  if _h : n < 10 then [digitChar n]
  else natDigits (n / 10) ++ [digitChar (n % 10)]
decreasing_by exact Nat.div_lt_self (by omega) (by omega)

/-- The base64url alphabet used by Node `buf.toString("base64url")`. -/
def b64Alphabet : Str :=
  ['A','B','C','D','E','F','G','H','I','J','K','L','M','N','O','P',
   'Q','R','S','T','U','V','W','X','Y','Z',
   'a','b','c','d','e','f','g','h','i','j','k','l','m','n','o','p',
   'q','r','s','t','u','v','w','x','y','z',
   '0','1','2','3','4','5','6','7','8','9','-','_']

/-- Character for a 6-bit group. -/
def b64Char (n : Nat) : Char := (b64Alphabet.get? (n % 64)).getD 'A'

/-- Node `Buffer.toString("base64url")`: unpadded base64url of a byte
sequence (each input is a byte value; callers supply values `< 256`,
the encoder reduces mod 256 groupwise via the 6-bit splits). -/
def base64urlEncode : List Nat → Str
  | [] => []
  | [b1] => [b64Char (b1 / 4), b64Char (b1 % 4 * 16)]
  | [b1, b2] =>
    [b64Char (b1 / 4), b64Char (b1 % 4 * 16 + b2 / 16), b64Char (b2 % 16 * 4)]
  | b1 :: b2 :: b3 :: rest =>
    b64Char (b1 / 4) :: b64Char (b1 % 4 * 16 + b2 / 16) ::
    b64Char (b2 % 16 * 4 + b3 / 64) :: b64Char (b3 % 64) :: base64urlEncode rest

/-! ## Data model (from `Credentials.ts` / `part_000`) -/

/-- The `CredentialType` enum.  The source member is spelled
`PriveledgedToken` (with string value `"PrivilegedToken"`). -/
inductive CredentialType
  | Password
  | ThirdParty
  | SessionToken
  | PriveledgedToken
deriving DecidableEq, Repr

/-- The token-only subset `CredentialType.SessionToken | CredentialType.PriveledgedToken`
used as the `type` argument of the token operations. -/
inductive TokenType
  | SessionToken
  | PriveledgedToken
deriving DecidableEq, Repr

/-- Inclusion of the token subset into `CredentialType`. -/
def TokenType.toCred : TokenType → CredentialType
  | .SessionToken => .SessionToken
  | .PriveledgedToken => .PriveledgedToken

/-- A persisted credential row (the `Credential` type of the source). -/
structure Credential where
  id : Nat
  created_at : Int
  user_id : String
  secret : Str
  type : CredentialType
  expires_at : Option Int
deriving DecidableEq, Repr

/-- The non-secret projection returned by `part_000`'s `validateToken`
(the `PublicCredential` type). -/
structure PublicCredential where
  id : Nat
  created_at : Int
  user_id : String
  type : CredentialType
  expires_at : Option Int
deriving DecidableEq, Repr

/-- A row as handed to `save`/`saveAndFetch` (no id yet; the store
assigns it). -/
structure NewCredential where
  created_at : Int
  user_id : String
  type : CredentialType
  secret : Str
  expires_at : Option Int
deriving DecidableEq, Repr

/-- The default `saltRounds` table from the constructor. -/
def defaultSaltRounds : CredentialType → Nat
  | .Password => 10
  | .ThirdParty => 0
  | .SessionToken => 1
  | .PriveledgedToken => 10

/-- The bcrypt collaborator: `hash(plaintext, cost)` and
`compare(plaintext, digest)`. -/
structure Hasher where
  hash : Str → Nat → Str
  compare : Str → Str → Bool

/-- The `HTTPError` failure class from `@larner.dev/http-codes`
(only `Unauthorized` is used). -/
inductive HTTPError
  | Unauthorized (msg : String)
deriving DecidableEq, Repr

deriving instance DecidableEq for Except

/-! ## The generic row store (collaborator `@larner.dev/db` `Model`) -/

/-- The equality predicates the credential model passes to `fetch` /
`hardDelete` (each lists exactly the fields named at the call site). -/
inductive RowPred
  | byUserIdType (user_id : String) (type : CredentialType)
  | byIdType (id : Int) (type : CredentialType)
  | byIdUserIdType (id : Int) (user_id : String) (type : CredentialType)
deriving DecidableEq, Repr

/-- Whether a row matches a predicate. -/
def predMatches (p : RowPred) (c : Credential) : Bool :=
  match p with
  | .byUserIdType u t => decide (c.user_id = u ∧ c.type = t)
  | .byIdType i t => decide ((c.id : Int) = i ∧ c.type = t)
  | .byIdUserIdType i u t => decide ((c.id : Int) = i ∧ c.user_id = u ∧ c.type = t)

/-- A storage call as performed by an operation, tagged with the
transaction handle (`none` = no transaction passed) the call was given. -/
inductive Effect
  | fetch (p : RowPred) (tx : Option Nat)
  | save (row : NewCredential) (tx : Option Nat)
  | hardDelete (p : RowPred) (tx : Option Nat)
deriving DecidableEq, Repr

/-- The `credentials` table: its rows plus the next serial id. -/
structure Store where
  rows : List Credential
  nextId : Nat
deriving DecidableEq, Repr

/-- The empty table (serial ids start at 1, as with Postgres `serial`). -/
def emptyStore : Store := { rows := [], nextId := 1 }

/-- `fetch(predicate)`: first matching row, or null. -/
def Store.fetchRow (s : Store) (p : RowPred) : Option Credential :=
  s.rows.find? (predMatches p)

/-- `hardDelete(predicate)`: remove every matching row. -/
def Store.hardDeleteRows (s : Store) (p : RowPred) : Store :=
  { s with rows := s.rows.filter (fun c => !(predMatches p c)) }

/-- `save`/`saveAndFetch`: insert a row, assigning the next serial id;
returns the stored row together with the new table. -/
def Store.insertRow (s : Store) (r : NewCredential) : Credential × Store :=
  let c : Credential :=
    { id := s.nextId, created_at := r.created_at, user_id := r.user_id,
      secret := r.secret, type := r.type, expires_at := r.expires_at }
  (c, { rows := s.rows ++ [c], nextId := s.nextId + 1 })

/-- Result of one operation: its return value, the table afterwards, and
the trace of storage calls it made. -/
structure OpResult (α : Type) where
  result : α
  store : Store
  trace : List Effect
deriving DecidableEq, Repr

/-- Transaction handle marker of an effect. -/
def Effect.txOf : Effect → Option Nat
  | .fetch _ t => t
  | .save _ t => t
  | .hardDelete _ t => t

/-- Whether an effect mutates the table (insert or delete, not fetch). -/
def Effect.isMutation : Effect → Bool
  | .fetch _ _ => false
  | .save _ _ => true
  | .hardDelete _ _ => true

/-- Rows handed to `save`/`saveAndFetch` in a trace, in order. -/
def savedRows (tr : List Effect) : List NewCredential :=
  tr.filterMap fun e =>
    match e with
    | .save r _ => some r
    | _ => none

/-- The `expires_at` computation of `Credentials.ts` `generateAndSaveToken`
(`let expiresAt = null; if (maxAgeMinutes) expiresAt = new Date(Date.now()
+ maxAgeMinutes * 60 * 1000)`, where `maxAgeMinutes : number | null`
defaults to `525600`): null and `0` are falsy and yield `null`. -/
def expiryCT (now : Int) (maxAgeMinutes : Option Int) : Option Int :=
  match maxAgeMinutes with
  | some m => if m ≠ 0 then some (now + m * 60 * 1000) else none
  | none => none

/-- The `expires_at` computation of `part_000` `generateAndSaveToken`
(`const maxAgeMinutes = args.maxAgeMinutes || 525600` followed by the same
truthiness test): an omitted or zero argument falls back to `525600`
before the test, so the result is never `null`. -/
def expiryP0 (now : Int) (maxAgeMinutes : Option Int) : Option Int :=
  let m : Int :=
    match maxAgeMinutes with
    | none => 525600
    | some v => if v = 0 then 525600 else v
  if m ≠ 0 then some (now + m * 60 * 1000) else none

/-! ## Operations of `src/src/models/Credentials.ts` (positional-argument
version: `validateToken` takes a `userId` and a required transaction,
returning a boolean) -/

namespace CredentialsTs

/-- `generateToken(type, length)`: draw random bytes (modelled by the
`bytes` input), base64url-encode them, hash at the type's cost; returns
`{token, hash}` as a pair. -/
def generateToken (h : Hasher) (sr : CredentialType → Nat) (type : TokenType)
    (bytes : List Nat) : Str × Str :=
  let token := base64urlEncode bytes
  (token, h.hash token (sr type.toCred))

/-- `generateAndSaveToken(userId, type, maxAgeMinutes = 525600, length, opts)`:
mint a token, compute `expires_at` (`new Date(Date.now() + maxAgeMinutes*60*1000)`
when `maxAgeMinutes` is truthy, else `null`), insert the row via
`saveAndFetch(…, opts)` and return the bearer string `` `${token}.${cred.id}` ``.
`maxAgeMinutes : Option Int` models `number | null`; the TS default fills in
`525600` when the argument is omitted. -/
def generateAndSaveToken (h : Hasher) (sr : CredentialType → Nat)
    (bytes : List Nat) (now : Int) (userId : String) (type : TokenType)
    (maxAgeMinutes : Option Int) (opts : Option Nat) (s : Store) : OpResult Str :=
  let tk := generateToken h sr type bytes
  let expiresAt : Option Int := expiryCT now maxAgeMinutes
  let row : NewCredential :=
    { created_at := now, user_id := userId, type := type.toCred,
      secret := tk.2, expires_at := expiresAt }
  let ins := s.insertRow row
  { result := tk.1 ++ '.' :: natDigits ins.1.id,
    store := ins.2,
    trace := [.save row opts] }

/-- `setPassword({password, userId, expiresAt?}, opts)`: `hardDelete` the
user's `Password` rows passing `opts`, hash the password at the `Password`
cost, then `save` the fresh row — the source passes NO `opts` to `save`,
so that insert runs outside the caller's transaction (trace records
`none`). -/
def setPassword (h : Hasher) (sr : CredentialType → Nat) (now : Int)
    (password : Str) (userId : String) (expiresAt : Option Int) (tx : Nat)
    (s : Store) : OpResult Unit :=
  let s1 := s.hardDeleteRows (.byUserIdType userId .Password)
  let secret := h.hash password (sr .Password)
  let row : NewCredential :=
    { created_at := now, user_id := userId, type := .Password,
      secret := secret, expires_at := expiresAt }
  let ins := s1.insertRow row
  { result := (),
    store := ins.2,
    trace := [.hardDelete (.byUserIdType userId .Password) (some tx),
              .save row none] }

/-- `validatePassword({userId, password}, opts?)`: fetch the user's
`Password` row; `false` when absent, else `compare(password, cred.secret)`. -/
def validatePassword (h : Hasher) (userId : String) (password : Str)
    (opts : Option Nat) (s : Store) : OpResult Bool :=
  match s.fetchRow (.byUserIdType userId .Password) with
  | none =>
    { result := false, store := s,
      trace := [.fetch (.byUserIdType userId .Password) opts] }
  | some cred =>
    { result := h.compare password cred.secret, store := s,
      trace := [.fetch (.byUserIdType userId .Password) opts] }

/-- `validatePasswordOrThrow({userId, password}, opts?)`: the source body
is identical to `validatePassword` — it fetches, returns `false` when the
row is absent and the `compare` result otherwise, and never throws.  The
result lives in `Except HTTPError Bool` so that a raised `HTTPError`
would be representable; the body only ever produces `.ok`. -/
def validatePasswordOrThrow (h : Hasher) (userId : String) (password : Str)
    (opts : Option Nat) (s : Store) : OpResult (Except HTTPError Bool) :=
  match s.fetchRow (.byUserIdType userId .Password) with
  | none =>
    { result := .ok false, store := s,
      trace := [.fetch (.byUserIdType userId .Password) opts] }
  | some cred =>
    { result := .ok (h.compare password cred.secret), store := s,
      trace := [.fetch (.byUserIdType userId .Password) opts] }

/-- `validateToken({userId, type, token}, opts)`: split the bearer string
on `"."` (two pieces required), `parseInt` the second piece (reject `NaN`),
fetch by `{id, user_id, type}` with the required transaction, then
`compare` the first piece against the stored secret. -/
def validateToken (h : Hasher) (userId : String) (type : TokenType)
    (token : Str) (tx : Nat) (s : Store) : OpResult Bool :=
  match splitOnDot token with
  | [hashPiece, idPiece] =>
    match parseInt idPiece with
    | none => { result := false, store := s, trace := [] }
    | some credId =>
      match s.fetchRow (.byIdUserIdType credId userId type.toCred) with
      | none =>
        { result := false, store := s,
          trace := [.fetch (.byIdUserIdType credId userId type.toCred) (some tx)] }
      | some cred =>
        { result := h.compare hashPiece cred.secret, store := s,
          trace := [.fetch (.byIdUserIdType credId userId type.toCred) (some tx)] }
  | _ => { result := false, store := s, trace := [] }

/-- `validateTokenOrThrow(data, opts)`: run `validateToken`; on `false`
throw `HTTPError.Unauthorized("UNAUTHORIZED")`. -/
def validateTokenOrThrow (h : Hasher) (userId : String) (type : TokenType)
    (token : Str) (tx : Nat) (s : Store) : OpResult (Except HTTPError Unit) :=
  let r := validateToken h userId type token tx s
  if r.result then { result := .ok (), store := r.store, trace := r.trace }
  else { result := .error (.Unauthorized "UNAUTHORIZED"), store := r.store, trace := r.trace }

end CredentialsTs

/-! ## Operations of `src/unnamed/part_000` (object-argument version:
`validateToken` has no `userId`, takes an optional transaction, and
returns `PublicCredential | null`) -/

namespace Part000

/-- `generateToken(type, length)`: identical to the `Credentials.ts`
version. -/
def generateToken (h : Hasher) (sr : CredentialType → Nat) (type : TokenType)
    (bytes : List Nat) : Str × Str :=
  let token := base64urlEncode bytes
  (token, h.hash token (sr type.toCred))

/-- `generateAndSaveToken({userId, type, maxAgeMinutes?, length?}, opts?)`:
here `maxAgeMinutes` is `args.maxAgeMinutes || 525600`, so an omitted
(`none`) or zero argument falls back to the one-year default before the
truthiness test; `expires_at` is then always non-null. -/
def generateAndSaveToken (h : Hasher) (sr : CredentialType → Nat)
    (bytes : List Nat) (now : Int) (userId : String) (type : TokenType)
    (maxAgeMinutes : Option Int) (opts : Option Nat) (s : Store) : OpResult Str :=
  let tk := generateToken h sr type bytes
  let expiresAt : Option Int := expiryP0 now maxAgeMinutes
  let row : NewCredential :=
    { created_at := now, user_id := userId, type := type.toCred,
      secret := tk.2, expires_at := expiresAt }
  let ins := s.insertRow row
  { result := tk.1 ++ '.' :: natDigits ins.1.id,
    store := ins.2,
    trace := [.save row opts] }

/-- `setPassword({password, userId, expiresAt?}, opts)`: identical to the
`Credentials.ts` version, including the `save` call without `opts`. -/
def setPassword (h : Hasher) (sr : CredentialType → Nat) (now : Int)
    (password : Str) (userId : String) (expiresAt : Option Int) (tx : Nat)
    (s : Store) : OpResult Unit :=
  let s1 := s.hardDeleteRows (.byUserIdType userId .Password)
  let secret := h.hash password (sr .Password)
  let row : NewCredential :=
    { created_at := now, user_id := userId, type := .Password,
      secret := secret, expires_at := expiresAt }
  let ins := s1.insertRow row
  { result := (),
    store := ins.2,
    trace := [.hardDelete (.byUserIdType userId .Password) (some tx),
              .save row none] }

/-- `validatePassword({userId, password}, opts?)`: identical to the
`Credentials.ts` version. -/
def validatePassword (h : Hasher) (userId : String) (password : Str)
    (opts : Option Nat) (s : Store) : OpResult Bool :=
  match s.fetchRow (.byUserIdType userId .Password) with
  | none =>
    { result := false, store := s,
      trace := [.fetch (.byUserIdType userId .Password) opts] }
  | some cred =>
    { result := h.compare password cred.secret, store := s,
      trace := [.fetch (.byUserIdType userId .Password) opts] }

/-- `validatePasswordOrThrow({userId, password}, opts?)`: as in
`Credentials.ts`, the body is a verbatim copy of `validatePassword` and
never throws; only `.ok` results are produced. -/
def validatePasswordOrThrow (h : Hasher) (userId : String) (password : Str)
    (opts : Option Nat) (s : Store) : OpResult (Except HTTPError Bool) :=
  match s.fetchRow (.byUserIdType userId .Password) with
  | none =>
    { result := .ok false, store := s,
      trace := [.fetch (.byUserIdType userId .Password) opts] }
  | some cred =>
    { result := .ok (h.compare password cred.secret), store := s,
      trace := [.fetch (.byUserIdType userId .Password) opts] }

/-- `validateToken({type, token}, opts?)`: split on `"."`, `parseInt` the
second piece, fetch by `{id, type}`, `compare` the first piece; on a
match return the public projection of the row, else `null`. -/
def validateToken (h : Hasher) (type : TokenType) (token : Str)
    (opts : Option Nat) (s : Store) : OpResult (Option PublicCredential) :=
  match splitOnDot token with
  | [hashPiece, idPiece] =>
    match parseInt idPiece with
    | none => { result := none, store := s, trace := [] }
    | some credId =>
      match s.fetchRow (.byIdType credId type.toCred) with
      | none =>
        { result := none, store := s,
          trace := [.fetch (.byIdType credId type.toCred) opts] }
      | some cred =>
        { result :=
            if h.compare hashPiece cred.secret then
              some { id := cred.id, created_at := cred.created_at,
                     user_id := cred.user_id, type := cred.type,
                     expires_at := cred.expires_at }
            else none,
          store := s,
          trace := [.fetch (.byIdType credId type.toCred) opts] }
  | _ => { result := none, store := s, trace := [] }

/-- `validateTokenOrThrow(data, opts?)`: run `validateToken`; on `null`
throw `HTTPError.Unauthorized("UNAUTHORIZED")`, else return the public
credential. -/
def validateTokenOrThrow (h : Hasher) (type : TokenType) (token : Str)
    (opts : Option Nat) (s : Store) : OpResult (Except HTTPError PublicCredential) :=
  let r := validateToken h type token opts s
  match r.result with
  | none =>
    { result := .error (.Unauthorized "UNAUTHORIZED"), store := r.store, trace := r.trace }
  | some cred => { result := .ok cred, store := r.store, trace := r.trace }

end Part000

/-- Liveness test from the spec's validation step 3:
`expires_at is null or expires_at > now`. -/
def isLive (now : Int) (c : Credential) : Bool :=
  match c.expires_at with
  | none => true
  | some e => decide (now < e)

/-- Modelled from the spec: `validateCredential` appears only in the
spec (§4.3, "A broader variant (`validateCredential`) generalizes lookup
to scan *all* non-expired credentials of a given `user_id`+`type` and
accept if the presented plaintext matches **any** one of their hashes");
no such function exists under `src/`.  It scans every non-expired row of
the given `user_id` and `type` and accepts exactly when the hash
comparison succeeds for at least one of them. -/
def validateCredential (h : Hasher) (now : Int) (userId : String)
    (type : CredentialType) (plaintext : Str) (s : Store) : Bool :=
  (s.rows.filter
      (fun c => decide (c.user_id = userId ∧ c.type = type) && isLive now c)).any
    (fun c => h.compare plaintext c.secret)

/-- A concrete hasher instance used for closed evaluations: `hash` is the
identity on the plaintext and `compare` is equality (it satisfies the
collaborator contract `compare p (hash p cost) = true`). -/
def idHasher : Hasher :=
  { hash := fun p _ => p, compare := fun p d => decide (p = d) }

/-- An integer numeral in the sense of the malformed-input claim: an
optional sign followed by one or more decimal digits and nothing else. -/
def isIntegerNumeral (l : Str) : Bool :=
  match l with
  | '-' :: r => !r.isEmpty && r.all isDigit
  | '+' :: r => !r.isEmpty && r.all isDigit
  | r => !r.isEmpty && r.all isDigit

/-- Test fixture: a table holding, for user `u1`, a session-token row
(id 1, raw token `"T"` under `idHasher`) and a password row (id 2, raw
password `"p"`), both with `expires_at = 999000` — strictly in the past
at validation time `1000000` (one second earlier). -/
def expiredFixture : Store :=
  { rows :=
      [ { id := 1, created_at := 0, user_id := "u1", secret := ['T'],
          type := .SessionToken, expires_at := some 999000 },
        { id := 2, created_at := 0, user_id := "u1", secret := ['p'],
          type := .Password, expires_at := some 999000 } ],
    nextId := 3 }

/-! ## Counting `Password` rows (for the at-most-one-password invariant) -/

/-- Number of `Password`-type rows of a given user in the table. -/
def passwordCount (s : Store) (u : String) : Nat :=
  (s.rows.filter
    (fun c => decide (c.user_id = u ∧ c.type = CredentialType.Password))).length

/-! ## Operation sequences (for the at-most-one-password invariant) -/

/-- One completed call to a public operation of either source version
(each carries its inputs; the suffix names the version). -/
inductive Op
  | setPasswordCT (now : Int) (password : Str) (userId : String)
      (expiresAt : Option Int) (tx : Nat)
  | setPasswordP0 (now : Int) (password : Str) (userId : String)
      (expiresAt : Option Int) (tx : Nat)
  | genTokenCT (bytes : List Nat) (now : Int) (userId : String)
      (type : TokenType) (maxAgeMinutes : Option Int) (opts : Option Nat)
  | genTokenP0 (bytes : List Nat) (now : Int) (userId : String)
      (type : TokenType) (maxAgeMinutes : Option Int) (opts : Option Nat)
  | valPasswordCT (userId : String) (password : Str) (opts : Option Nat)
  | valPasswordOrThrowCT (userId : String) (password : Str) (opts : Option Nat)
  | valTokenCT (userId : String) (type : TokenType) (token : Str) (tx : Nat)
  | valTokenOrThrowCT (userId : String) (type : TokenType) (token : Str) (tx : Nat)
  | valPasswordP0 (userId : String) (password : Str) (opts : Option Nat)
  | valPasswordOrThrowP0 (userId : String) (password : Str) (opts : Option Nat)
  | valTokenP0 (type : TokenType) (token : Str) (opts : Option Nat)
  | valTokenOrThrowP0 (type : TokenType) (token : Str) (opts : Option Nat)

/-- Table state after one completed operation. -/
def runOp (h : Hasher) (sr : CredentialType → Nat) (s : Store) : Op → Store
  | .setPasswordCT now pw u e tx => (CredentialsTs.setPassword h sr now pw u e tx s).store
  | .setPasswordP0 now pw u e tx => (Part000.setPassword h sr now pw u e tx s).store
  | .genTokenCT bytes now u t m o => (CredentialsTs.generateAndSaveToken h sr bytes now u t m o s).store
  | .genTokenP0 bytes now u t m o => (Part000.generateAndSaveToken h sr bytes now u t m o s).store
  | .valPasswordCT u p o => (CredentialsTs.validatePassword h u p o s).store
  | .valPasswordOrThrowCT u p o => (CredentialsTs.validatePasswordOrThrow h u p o s).store
  | .valTokenCT u t tok tx => (CredentialsTs.validateToken h u t tok tx s).store
  | .valTokenOrThrowCT u t tok tx => (CredentialsTs.validateTokenOrThrow h u t tok tx s).store
  | .valPasswordP0 u p o => (Part000.validatePassword h u p o s).store
  | .valPasswordOrThrowP0 u p o => (Part000.validatePasswordOrThrow h u p o s).store
  | .valTokenP0 t tok o => (Part000.validateToken h t tok o s).store
  | .valTokenOrThrowP0 t tok o => (Part000.validateTokenOrThrow h t tok o s).store

/-! ## Lemmas about the character and numeral utilities -/

/-- A digit character is not `parseInt` whitespace. -/
theorem digit_not_ws {c : Char} (h : isDigit c = true) : isWS c = false := by
  simp only [isDigit, Bool.and_eq_true, decide_eq_true_eq] at h
  simp only [isWS, Bool.or_eq_false_iff, decide_eq_false_iff_not]
  omega

/-- `digitChar` always produces a decimal digit character. -/
theorem isDigit_digitChar (k : Nat) : isDigit (digitChar k) = true := by
  unfold digitChar
  split_ifs <;> decide

/-- `digitVal` inverts `digitChar` below 10. -/
theorem digitVal_digitChar (k : Nat) (h : k < 10) : digitVal (digitChar k) = k := by
  interval_cases k <;> decide

/-- Every character of `natDigits n` is a decimal digit. -/
theorem natDigits_digits (n : Nat) : ∀ c ∈ natDigits n, isDigit c = true := by
  induction n using Nat.strong_induction_on with
  | _ n ih =>
    intro c hc
    rw [natDigits.eq_def] at hc
    by_cases h : n < 10
    · rw [dif_pos h] at hc
      simp only [List.mem_singleton] at hc
      exact hc ▸ isDigit_digitChar n
    · rw [dif_neg h] at hc
      rcases List.mem_append.mp hc with hm | hm
      · exact ih (n / 10) (Nat.div_lt_self (by omega) (by omega)) c hm
      · simp only [List.mem_singleton] at hm
        exact hm ▸ isDigit_digitChar (n % 10)

/-- `natDigits` never produces the empty string. -/
theorem natDigits_ne_nil (n : Nat) : natDigits n ≠ [] := by
  rw [natDigits.eq_def]
  by_cases h : n < 10
  · rw [dif_pos h]; simp
  · rw [dif_neg h]; simp

/-- Value of folding the decimal accumulator over `natDigits n`. -/
theorem foldl_natDigits (n : Nat) : ∀ a : Nat,
    (natDigits n).foldl (fun a c => a * 10 + digitVal c) a
      = a * 10 ^ (natDigits n).length + n := by
  induction n using Nat.strong_induction_on with
  | _ n ih =>
    intro a
    rw [natDigits.eq_def]
    by_cases h : n < 10
    · rw [dif_pos h]
      simp only [List.foldl_cons, List.foldl_nil, List.length_singleton, pow_one]
      rw [digitVal_digitChar n h]
    · rw [dif_neg h]
      rw [List.foldl_append]
      rw [ih (n / 10) (Nat.div_lt_self (by omega) (by omega)) a]
      simp only [List.foldl_cons, List.foldl_nil, List.length_append,
        List.length_singleton]
      rw [digitVal_digitChar (n % 10) (Nat.mod_lt _ (by omega))]
      rw [pow_succ, ← mul_assoc]
      generalize a * 10 ^ (natDigits (n / 10)).length = Q
      omega

/-- `takeWhile` keeps a list all of whose elements satisfy the predicate. -/
theorem takeWhile_all {p : Char → Bool} (l : Str) (h : ∀ c ∈ l, p c = true) :
    l.takeWhile p = l := by
  induction l with
  | nil => rfl
  | cons c rest ih =>
    rw [List.takeWhile_cons, if_pos (h c (List.mem_cons_self c rest))]
    rw [ih (fun d hd => h d (List.mem_cons_of_mem _ hd))]

/-- A decimal digit run parses back, `parseNatDec (natDigits n) = some n`. -/
theorem parseNatDec_natDigits (n : Nat) : parseNatDec (natDigits n) = some n := by
  unfold parseNatDec
  rw [takeWhile_all _ (natDigits_digits n)]
  rw [if_neg (by simp [List.isEmpty_iff, natDigits_ne_nil n])]
  rw [foldl_natDigits n 0]
  simp

/-- A digit character is none of the `parseInt` special characters. -/
theorem digit_not_special {c : Char} (h : isDigit c = true) :
    c ≠ '-' ∧ c ≠ '+' ∧ c ≠ 'x' ∧ c ≠ 'X' := by
  refine ⟨?_, ?_, ?_, ?_⟩ <;> intro he <;> rw [he] at h <;> exact absurd h (by decide)

/-- JS `parseInt` reads back the decimal rendering of a natural number. -/
theorem parseInt_natDigits (n : Nat) : parseInt (natDigits n) = some (n : Int) := by
  have hd := natDigits_digits n
  obtain ⟨c, cs, hcs⟩ : ∃ c cs, natDigits n = c :: cs := by
    cases hh : natDigits n with
    | nil => exact absurd hh (natDigits_ne_nil n)
    | cons c cs => exact ⟨c, cs, rfl⟩
  have hcdig : isDigit c = true := hd c (by rw [hcs]; exact List.mem_cons_self c cs)
  have hspec := digit_not_special hcdig
  have hdw : (c :: cs).dropWhile isWS = c :: cs := by
    rw [List.dropWhile_cons, if_neg (by simp [digit_not_ws hcdig])]
  have hcore : parseIntCore (c :: cs) = some n := by
    cases cs with
    | nil =>
      show parseNatDec [c] = some n
      rw [← hcs]
      exact parseNatDec_natDigits n
    | cons c1 r =>
      have hc1dig : isDigit c1 = true := by
        refine hd c1 ?_
        rw [hcs]
        exact List.mem_cons_of_mem _ (List.mem_cons_self c1 r)
      have hc1 := digit_not_special hc1dig
      show (if c = '0' ∧ (c1 = 'x' ∨ c1 = 'X') then parseNatHex r
            else parseNatDec (c :: c1 :: r)) = some n
      rw [if_neg (by rintro ⟨h0, hx | hX⟩
                     · exact hc1.2.2.1 hx
                     · exact hc1.2.2.2 hX)]
      rw [← hcs]
      exact parseNatDec_natDigits n
  unfold parseInt
  rw [hcs, hdw]
  rw [if_neg (by simp [hspec.1]), if_neg (by simp [hspec.2.1]),
    if_neg (by simp)]
  rw [hcore]
  rfl

/-- `natDigits` never contains the bearer delimiter `'.'`. -/
theorem natDigits_no_dot (n : Nat) : '.' ∉ natDigits n := by
  intro hm
  have := natDigits_digits n '.' hm
  exact absurd this (by decide)

/-- A 6-bit group character is never the delimiter `'.'`. -/
theorem b64Char_ne_dot (n : Nat) : b64Char n ≠ '.' := by
  unfold b64Char
  cases hq : b64Alphabet.get? (n % 64) with
  | none => simp
  | some c =>
    have hc : c ∈ b64Alphabet := List.get?_mem hq
    have hnd : ('.' : Char) ∉ b64Alphabet := by decide
    simp only [Option.getD_some]
    intro he
    exact hnd (he ▸ hc)

/-- The base64url encoding of any byte sequence never contains `'.'`. -/
theorem noDot_base64 : ∀ bytes : List Nat, '.' ∉ base64urlEncode bytes
  | [] => by simp [base64urlEncode]
  | [b1] => by
    intro hmem
    simp only [base64urlEncode, List.mem_cons, List.not_mem_nil, or_false] at hmem
    rcases hmem with h | h <;> exact b64Char_ne_dot _ h.symm
  | [b1, b2] => by
    intro hmem
    simp only [base64urlEncode, List.mem_cons, List.not_mem_nil, or_false] at hmem
    rcases hmem with h | h | h <;> exact b64Char_ne_dot _ h.symm
  | b1 :: b2 :: b3 :: rest => by
    intro hmem
    simp only [base64urlEncode, List.mem_cons] at hmem
    rcases hmem with h | h | h | h | h
    · exact b64Char_ne_dot _ h.symm
    · exact b64Char_ne_dot _ h.symm
    · exact b64Char_ne_dot _ h.symm
    · exact b64Char_ne_dot _ h.symm
    · exact noDot_base64 rest h

/-- Splitting a dot-free string yields that single segment. -/
theorem splitOnDot_no_dot (ys : Str) (h : '.' ∉ ys) : splitOnDot ys = [ys] := by
  induction ys with
  | nil => rfl
  | cons c rest ih =>
    have hc : ¬ c = '.' := by
      intro he
      exact h (by simp [he])
    have hr : '.' ∉ rest := fun hm => h (List.mem_cons_of_mem _ hm)
    simp only [splitOnDot, if_neg hc, ih hr]

/-- Splitting `xs ++ "." ++ ys` with a dot-free `xs` peels off `xs`. -/
theorem splitOnDot_append (xs ys : Str) (hx : '.' ∉ xs) :
    splitOnDot (xs ++ '.' :: ys) = xs :: splitOnDot ys := by
  induction xs with
  | nil => simp [splitOnDot]
  | cons c rest ih =>
    have hc : ¬ c = '.' := by
      intro he
      exact hx (by simp [he])
    have hr : '.' ∉ rest := fun hm => hx (List.mem_cons_of_mem _ hm)
    have hstep : (c :: rest) ++ '.' :: ys = c :: (rest ++ '.' :: ys) := rfl
    rw [hstep]
    simp only [splitOnDot, if_neg hc]
    rw [ih hr]

/-! ## Frame helpers: the validation operations never touch the table -/

/-- `Credentials.ts` `validatePassword` reads only. -/
theorem CT_validatePassword_frame (h : Hasher) (u : String) (p : Str)
    (o : Option Nat) (s : Store) :
    (CredentialsTs.validatePassword h u p o s).store = s ∧
    (CredentialsTs.validatePassword h u p o s).trace.filter Effect.isMutation = [] := by
  cases hf : s.fetchRow (.byUserIdType u .Password) <;>
    simp [CredentialsTs.validatePassword, hf, Effect.isMutation]

/-- `Credentials.ts` `validatePasswordOrThrow` reads only. -/
theorem CT_validatePasswordOrThrow_frame (h : Hasher) (u : String) (p : Str)
    (o : Option Nat) (s : Store) :
    (CredentialsTs.validatePasswordOrThrow h u p o s).store = s ∧
    (CredentialsTs.validatePasswordOrThrow h u p o s).trace.filter Effect.isMutation = [] := by
  cases hf : s.fetchRow (.byUserIdType u .Password) <;>
    simp [CredentialsTs.validatePasswordOrThrow, hf, Effect.isMutation]

/-- `Credentials.ts` `validateToken` reads only. -/
theorem CT_validateToken_frame (h : Hasher) (u : String) (ttype : TokenType)
    (token : Str) (tx : Nat) (s : Store) :
    (CredentialsTs.validateToken h u ttype token tx s).store = s ∧
    (CredentialsTs.validateToken h u ttype token tx s).trace.filter Effect.isMutation = [] := by
  rcases hsp : splitOnDot token with _ | ⟨a, _ | ⟨b, _ | ⟨c0, rest⟩⟩⟩
  · simp [CredentialsTs.validateToken, hsp]
  · simp [CredentialsTs.validateToken, hsp]
  · cases hpi : parseInt b with
    | none => simp [CredentialsTs.validateToken, hsp, hpi]
    | some credId =>
      cases hf : s.fetchRow (.byIdUserIdType credId u ttype.toCred) with
      | none => simp [CredentialsTs.validateToken, hsp, hpi, hf, Effect.isMutation]
      | some cred => simp [CredentialsTs.validateToken, hsp, hpi, hf, Effect.isMutation]
  · simp [CredentialsTs.validateToken, hsp]

/-- `Credentials.ts` `validateTokenOrThrow` reads only. -/
theorem CT_validateTokenOrThrow_frame (h : Hasher) (u : String) (ttype : TokenType)
    (token : Str) (tx : Nat) (s : Store) :
    (CredentialsTs.validateTokenOrThrow h u ttype token tx s).store = s ∧
    (CredentialsTs.validateTokenOrThrow h u ttype token tx s).trace.filter Effect.isMutation = [] := by
  have hb := CT_validateToken_frame h u ttype token tx s
  simp only [CredentialsTs.validateTokenOrThrow]
  split <;> exact ⟨hb.1, hb.2⟩

/-- `part_000` `validatePassword` reads only. -/
theorem P0_validatePassword_frame (h : Hasher) (u : String) (p : Str)
    (o : Option Nat) (s : Store) :
    (Part000.validatePassword h u p o s).store = s ∧
    (Part000.validatePassword h u p o s).trace.filter Effect.isMutation = [] := by
  cases hf : s.fetchRow (.byUserIdType u .Password) <;>
    simp [Part000.validatePassword, hf, Effect.isMutation]

/-- `part_000` `validatePasswordOrThrow` reads only. -/
theorem P0_validatePasswordOrThrow_frame (h : Hasher) (u : String) (p : Str)
    (o : Option Nat) (s : Store) :
    (Part000.validatePasswordOrThrow h u p o s).store = s ∧
    (Part000.validatePasswordOrThrow h u p o s).trace.filter Effect.isMutation = [] := by
  cases hf : s.fetchRow (.byUserIdType u .Password) <;>
    simp [Part000.validatePasswordOrThrow, hf, Effect.isMutation]

/-- `part_000` `validateToken` reads only. -/
theorem P0_validateToken_frame (h : Hasher) (ttype : TokenType)
    (token : Str) (o : Option Nat) (s : Store) :
    (Part000.validateToken h ttype token o s).store = s ∧
    (Part000.validateToken h ttype token o s).trace.filter Effect.isMutation = [] := by
  rcases hsp : splitOnDot token with _ | ⟨a, _ | ⟨b, _ | ⟨c0, rest⟩⟩⟩
  · simp [Part000.validateToken, hsp]
  · simp [Part000.validateToken, hsp]
  · cases hpi : parseInt b with
    | none => simp [Part000.validateToken, hsp, hpi]
    | some credId =>
      cases hf : s.fetchRow (.byIdType credId ttype.toCred) with
      | none => simp [Part000.validateToken, hsp, hpi, hf, Effect.isMutation]
      | some cred => simp [Part000.validateToken, hsp, hpi, hf, Effect.isMutation]
  · simp [Part000.validateToken, hsp]

/-- `part_000` `validateTokenOrThrow` reads only. -/
theorem P0_validateTokenOrThrow_frame (h : Hasher) (ttype : TokenType)
    (token : Str) (o : Option Nat) (s : Store) :
    (Part000.validateTokenOrThrow h ttype token o s).store = s ∧
    (Part000.validateTokenOrThrow h ttype token o s).trace.filter Effect.isMutation = [] := by
  have hb := P0_validateToken_frame h ttype token o s
  simp only [Part000.validateTokenOrThrow]
  rcases hr : (Part000.validateToken h ttype token o s).result with _ | cred <;>
    simp only [hr] <;> exact ⟨hb.1, hb.2⟩

/-- Hard-deleting a user's password rows zeroes that user's count. -/
theorem passwordCount_hardDelete_self (s : Store) (u : String) :
    passwordCount (s.hardDeleteRows (.byUserIdType u .Password)) u = 0 := by
  unfold passwordCount Store.hardDeleteRows
  simp only [List.length_eq_zero]
  induction s.rows with
  | nil => rfl
  | cons c rest ih =>
    by_cases hm : predMatches (RowPred.byUserIdType u CredentialType.Password) c = true
    · simp only [List.filter_cons, hm, Bool.not_true, Bool.false_eq_true, if_false]
      exact ih
    · have hm' : decide (c.user_id = u ∧ c.type = CredentialType.Password) = false := by
        simpa [predMatches] using hm
      simp only [List.filter_cons, hm', Bool.false_eq_true, if_false]
      simp only [Bool.not_eq_true] at hm
      simp only [hm, Bool.not_false, if_true, List.filter_cons, hm',
        Bool.false_eq_true, if_false]
      exact ih

/-- Hard-deleting never increases any password count. -/
theorem passwordCount_hardDelete_le (s : Store) (p : RowPred) (u : String) :
    passwordCount (s.hardDeleteRows p) u ≤ passwordCount s u := by
  unfold passwordCount Store.hardDeleteRows
  exact ((List.filter_sublist _).filter _).length_le

/-- Inserting a row adds one to the matching user's password count and
leaves the others unchanged. -/
theorem passwordCount_insert (s : Store) (r : NewCredential) (u : String) :
    passwordCount (s.insertRow r).2 u
      = passwordCount s u
        + (if r.user_id = u ∧ r.type = CredentialType.Password then 1 else 0) := by
  unfold passwordCount Store.insertRow
  simp only [List.filter_append, List.length_append]
  congr 1
  by_cases hc : r.user_id = u ∧ r.type = CredentialType.Password
  · simp [List.filter_cons, hc]
  · simp [List.filter_cons, hc]

/-- The table after `setPassword` (either version) holds exactly one
password row for the target user and no more for anyone else. -/
theorem passwordCount_setPassword_store (s : Store) (row : NewCredential)
    (uid u : String) (hrow : row.user_id = uid) (_hty : row.type = .Password)
    (hinv : passwordCount s u ≤ 1) :
    passwordCount ((s.hardDeleteRows (.byUserIdType uid .Password)).insertRow row).2 u ≤ 1 := by
  rw [passwordCount_insert]
  by_cases hu : uid = u
  · subst hu
    rw [passwordCount_hardDelete_self]
    split <;> omega
  · have hcond : ¬(row.user_id = u ∧ row.type = CredentialType.Password) := by
      rintro ⟨h1, _⟩
      exact hu (hrow ▸ h1)
    rw [if_neg hcond]
    have := passwordCount_hardDelete_le s (.byUserIdType uid .Password) u
    omega

/-- A non-`Password` insert leaves every password count unchanged. -/
theorem passwordCount_insert_token (s : Store) (row : NewCredential)
    (u : String) (hty : row.type ≠ CredentialType.Password) :
    passwordCount (s.insertRow row).2 u = passwordCount s u := by
  rw [passwordCount_insert]
  rw [if_neg (by rintro ⟨_, h2⟩; exact hty h2)]
  omega

/-- One completed operation preserves "at most one password row per user". -/
theorem passwordCount_runOp (h : Hasher) (sr : CredentialType → Nat)
    (s : Store) (op : Op) (u : String) (hinv : passwordCount s u ≤ 1) :
    passwordCount (runOp h sr s op) u ≤ 1 := by
  cases op with
  | setPasswordCT now pw uid e tx =>
    exact passwordCount_setPassword_store s _ uid u rfl rfl hinv
  | setPasswordP0 now pw uid e tx =>
    exact passwordCount_setPassword_store s _ uid u rfl rfl hinv
  | genTokenCT bytes now uid t m o =>
    show passwordCount ((s.insertRow _).2) u ≤ 1
    rw [passwordCount_insert_token s _ u (by cases t <;> simp [TokenType.toCred])]
    exact hinv
  | genTokenP0 bytes now uid t m o =>
    show passwordCount ((s.insertRow _).2) u ≤ 1
    rw [passwordCount_insert_token s _ u (by cases t <;> simp [TokenType.toCred])]
    exact hinv
  | valPasswordCT uid p o =>
    rw [show runOp h sr s (.valPasswordCT uid p o) = s from (CT_validatePassword_frame h uid p o s).1]
    exact hinv
  | valPasswordOrThrowCT uid p o =>
    rw [show runOp h sr s (.valPasswordOrThrowCT uid p o) = s from (CT_validatePasswordOrThrow_frame h uid p o s).1]
    exact hinv
  | valTokenCT uid t tok tx =>
    rw [show runOp h sr s (.valTokenCT uid t tok tx) = s from (CT_validateToken_frame h uid t tok tx s).1]
    exact hinv
  | valTokenOrThrowCT uid t tok tx =>
    rw [show runOp h sr s (.valTokenOrThrowCT uid t tok tx) = s from (CT_validateTokenOrThrow_frame h uid t tok tx s).1]
    exact hinv
  | valPasswordP0 uid p o =>
    rw [show runOp h sr s (.valPasswordP0 uid p o) = s from (P0_validatePassword_frame h uid p o s).1]
    exact hinv
  | valPasswordOrThrowP0 uid p o =>
    rw [show runOp h sr s (.valPasswordOrThrowP0 uid p o) = s from (P0_validatePasswordOrThrow_frame h uid p o s).1]
    exact hinv
  | valTokenP0 t tok o =>
    rw [show runOp h sr s (.valTokenP0 t tok o) = s from (P0_validateToken_frame h t tok o s).1]
    exact hinv
  | valTokenOrThrowP0 t tok o =>
    rw [show runOp h sr s (.valTokenOrThrowP0 t tok o) = s from (P0_validateTokenOrThrow_frame h t tok o s).1]
    exact hinv

/-- The invariant carries over any sequence of completed operations. -/
theorem passwordCount_foldl (h : Hasher) (sr : CredentialType → Nat)
    (ops : List Op) : ∀ s : Store, (∀ u, passwordCount s u ≤ 1) →
    ∀ u, passwordCount (ops.foldl (runOp h sr) s) u ≤ 1 := by
  induction ops with
  | nil => intro s hs; exact hs
  | cons op rest ih =>
    intro s hs u
    exact ih (runOp h sr s op) (fun v => passwordCount_runOp h sr s op v (hs v)) u

/-! ## Claim theorems -/

/-- C1: the claim states that every validation operation rejects a
credential whose `expires_at` lies in the past.  In the source, no
validation path consults `expires_at` at all (the fetch predicates name
only `id`/`user_id`/`type`, and no post-fetch check exists), so at the
concrete failing input — rows expired one second before validation time
`1000000` — every validation operation of both versions still accepts. -/
theorem expired_rows_accepted_despite_expiry :
    (∀ c ∈ expiredFixture.rows, isLive 1000000 c = false) ∧
    (Part000.validateToken idHasher .SessionToken ['T', '.', '1'] none expiredFixture).result
      = some { id := 1, created_at := 0, user_id := "u1", type := .SessionToken,
               expires_at := some 999000 } ∧
    (Part000.validateTokenOrThrow idHasher .SessionToken ['T', '.', '1'] none expiredFixture).result
      = .ok { id := 1, created_at := 0, user_id := "u1", type := .SessionToken,
              expires_at := some 999000 } ∧
    (CredentialsTs.validateToken idHasher "u1" .SessionToken ['T', '.', '1'] 7 expiredFixture).result = true ∧
    (CredentialsTs.validateTokenOrThrow idHasher "u1" .SessionToken ['T', '.', '1'] 7 expiredFixture).result = .ok () ∧
    (CredentialsTs.validatePassword idHasher "u1" ['p'] none expiredFixture).result = true ∧
    (CredentialsTs.validatePasswordOrThrow idHasher "u1" ['p'] none expiredFixture).result = .ok true ∧
    (Part000.validatePassword idHasher "u1" ['p'] none expiredFixture).result = true ∧
    (Part000.validatePasswordOrThrow idHasher "u1" ['p'] none expiredFixture).result = .ok true := by
  decide

/-- C2: the claim states that both mutations of `setPassword` run inside
the single caller-supplied transaction.  In the source, `hardDelete`
receives `opts` but `save` is called without it, so at the concrete
failing input the delete effect carries the caller's transaction handle
`1` while the insert effect carries no transaction at all — refuting
"every mutation runs in the caller's transaction" for both versions. -/
theorem setPassword_insert_outside_transaction :
    (CredentialsTs.setPassword idHasher defaultSaltRounds 0 ['p'] "u1" none 1 emptyStore).trace
      = [Effect.hardDelete (RowPred.byUserIdType "u1" .Password) (some 1),
         Effect.save { created_at := 0, user_id := "u1", type := .Password,
                       secret := ['p'], expires_at := none } none] ∧
    ¬(∀ eff ∈ (CredentialsTs.setPassword idHasher defaultSaltRounds 0 ['p'] "u1" none 1 emptyStore).trace,
        eff.txOf = some 1) ∧
    (Part000.setPassword idHasher defaultSaltRounds 0 ['p'] "u1" none 1 emptyStore).trace
      = [Effect.hardDelete (RowPred.byUserIdType "u1" .Password) (some 1),
         Effect.save { created_at := 0, user_id := "u1", type := .Password,
                       secret := ['p'], expires_at := none } none] ∧
    ¬(∀ eff ∈ (Part000.setPassword idHasher defaultSaltRounds 0 ['p'] "u1" none 1 emptyStore).trace,
        eff.txOf = some 1) := by
  decide

/-- C3: the claim states that both throwing variants raise `Unauthorized`
on every rejection.  `validateTokenOrThrow` does (last two conjuncts),
but `validatePasswordOrThrow` — whose source body is a verbatim copy of
`validatePassword` — returns `.ok false` on rejection in both versions
and never raises, refuting the claim at the concrete input of a user
with no password row. -/
theorem validatePasswordOrThrow_returns_false_instead_of_throwing :
    (CredentialsTs.validatePasswordOrThrow idHasher "u1" ['p'] none emptyStore).result = .ok false ∧
    (Part000.validatePasswordOrThrow idHasher "u1" ['p'] none emptyStore).result = .ok false ∧
    (CredentialsTs.validateTokenOrThrow idHasher "u1" .SessionToken ['x'] 1 emptyStore).result
      = .error (.Unauthorized "UNAUTHORIZED") ∧
    (Part000.validateTokenOrThrow idHasher .SessionToken ['x'] none emptyStore).result
      = .error (.Unauthorized "UNAUTHORIZED") := by
  decide

/-- C4 counterexample: the claim states that `maxAgeMinutes = 0` yields a
null `expires_at`; in the `part_000` version, `args.maxAgeMinutes || 525600`
turns `0` into the one-year default, so the inserted row's `expires_at`
is `now + 525600 minutes`, not null. -/
theorem generateAndSaveToken_zero_maxAge_not_null :
    ((savedRows (Part000.generateAndSaveToken idHasher defaultSaltRounds [0] 0 "u1"
        .SessionToken (some 0) none emptyStore).trace).map
      (fun r => r.expires_at)) = [some 31536000000] ∧
    (some (31536000000 : Int) : Option Int) ≠ none := by
  decide

/-- C4 (amended): in the `Credentials.ts` version a non-zero
`maxAgeMinutes` yields `expires_at = now + maxAgeMinutes` minutes and a
zero or null `maxAgeMinutes` yields null (with `525600` as the omitted
default); in the `part_000` version a zero or omitted `maxAgeMinutes`
falls back to the `525600` default, so the inserted row's `expires_at`
is never null. -/
theorem generateAndSaveToken_expiry (h : Hasher) (sr : CredentialType → Nat)
    (bytes : List Nat) (now : Int) (userId : String) (ttype : TokenType)
    (opts : Option Nat) (s : Store) :
    (∀ m : Int, m ≠ 0 →
      (savedRows (CredentialsTs.generateAndSaveToken h sr bytes now userId ttype
          (some m) opts s).trace).map (fun r => r.expires_at)
        = [some (now + m * 60 * 1000)]) ∧
    ((savedRows (CredentialsTs.generateAndSaveToken h sr bytes now userId ttype
        (some 0) opts s).trace).map (fun r => r.expires_at) = [none]) ∧
    ((savedRows (CredentialsTs.generateAndSaveToken h sr bytes now userId ttype
        none opts s).trace).map (fun r => r.expires_at) = [none]) ∧
    (∀ m : Int, m ≠ 0 →
      (savedRows (Part000.generateAndSaveToken h sr bytes now userId ttype
          (some m) opts s).trace).map (fun r => r.expires_at)
        = [some (now + m * 60 * 1000)]) ∧
    ((savedRows (Part000.generateAndSaveToken h sr bytes now userId ttype
        (some 0) opts s).trace).map (fun r => r.expires_at)
      = [some (now + 525600 * 60 * 1000)]) ∧
    ((savedRows (Part000.generateAndSaveToken h sr bytes now userId ttype
        none opts s).trace).map (fun r => r.expires_at)
      = [some (now + 525600 * 60 * 1000)]) := by
  refine ⟨?_, ?_, ?_, ?_, ?_, ?_⟩
  · intro m hm
    simp [CredentialsTs.generateAndSaveToken, savedRows, expiryCT, hm]
  · simp [CredentialsTs.generateAndSaveToken, savedRows, expiryCT]
  · simp [CredentialsTs.generateAndSaveToken, savedRows, expiryCT]
  · intro m hm
    simp [Part000.generateAndSaveToken, savedRows, expiryP0, hm]
  · simp [Part000.generateAndSaveToken, savedRows, expiryP0]
  · simp [Part000.generateAndSaveToken, savedRows, expiryP0]

/-- C4 witness: the amended expiry behaviour evaluated at concrete
inputs (`maxAgeMinutes = 5` for the non-zero case of `Credentials.ts`,
`maxAgeMinutes = 0` for the fallback case of `part_000`). -/
theorem generateAndSaveToken_expiry_witness :
    ((savedRows (CredentialsTs.generateAndSaveToken idHasher defaultSaltRounds [0] 0 "u1"
        .SessionToken (some 5) none emptyStore).trace).map
      (fun r => r.expires_at) = [some 300000]) ∧
    ((savedRows (Part000.generateAndSaveToken idHasher defaultSaltRounds [0] 0 "u1"
        .SessionToken (some 0) none emptyStore).trace).map
      (fun r => r.expires_at) = [some 31536000000]) :=
  ⟨(generateAndSaveToken_expiry idHasher defaultSaltRounds [0] 0 "u1" .SessionToken
      none emptyStore).1 5 (by decide),
   (generateAndSaveToken_expiry idHasher defaultSaltRounds [0] 0 "u1" .SessionToken
      none emptyStore).2.2.2.2.1⟩

/-- C5 counterexample: the claim states that every bearer string with a
non-numeric second segment is rejected before lookup; but JS
`parseInt("5x")` yields `5`, so `"t.5x"` — whose second segment `"5x"`
is not an integer numeral — reaches the storage fetch in both versions. -/
theorem validateToken_fetches_on_nonnumeral :
    isIntegerNumeral ['5', 'x'] = false ∧
    (Part000.validateToken idHasher .SessionToken ['t', '.', '5', 'x'] none emptyStore).trace
      = [Effect.fetch (RowPred.byIdType 5 .SessionToken) none] ∧
    (CredentialsTs.validateToken idHasher "u1" .SessionToken ['t', '.', '5', 'x'] 1 emptyStore).trace
      = [Effect.fetch (RowPred.byIdUserIdType 5 "u1" .SessionToken) (some 1)] := by
  decide

/-- C5 (amended): a bearer string that does not split on `'.'` into
exactly two parts, or whose second part has no parseable integer prefix
(JS `parseInt` returns `NaN`), is rejected by `validateToken` of both
versions with no storage access at all; a second part with a numeric
prefix followed by junk, however, parses to that prefix and proceeds to
the lookup. -/
theorem validateToken_malformed_rejects_without_fetch
    (h : Hasher) (u : String) (ttype : TokenType) (token : Str)
    (tx : Nat) (o : Option Nat) (s : Store) :
    ((splitOnDot token).length ≠ 2 →
      (CredentialsTs.validateToken h u ttype token tx s).result = false ∧
      (CredentialsTs.validateToken h u ttype token tx s).trace = [] ∧
      (Part000.validateToken h ttype token o s).result = none ∧
      (Part000.validateToken h ttype token o s).trace = []) ∧
    (∀ a b : Str, splitOnDot token = [a, b] → parseInt b = none →
      (CredentialsTs.validateToken h u ttype token tx s).result = false ∧
      (CredentialsTs.validateToken h u ttype token tx s).trace = [] ∧
      (Part000.validateToken h ttype token o s).result = none ∧
      (Part000.validateToken h ttype token o s).trace = []) := by
  constructor
  · intro hlen
    rcases hsp : splitOnDot token with _ | ⟨a, _ | ⟨b, _ | ⟨c0, rest⟩⟩⟩
    · exact ⟨by simp [CredentialsTs.validateToken, hsp],
        by simp [CredentialsTs.validateToken, hsp],
        by simp [Part000.validateToken, hsp],
        by simp [Part000.validateToken, hsp]⟩
    · exact ⟨by simp [CredentialsTs.validateToken, hsp],
        by simp [CredentialsTs.validateToken, hsp],
        by simp [Part000.validateToken, hsp],
        by simp [Part000.validateToken, hsp]⟩
    · exact absurd (by simp [hsp]) hlen
    · exact ⟨by simp [CredentialsTs.validateToken, hsp],
        by simp [CredentialsTs.validateToken, hsp],
        by simp [Part000.validateToken, hsp],
        by simp [Part000.validateToken, hsp]⟩
  · intro a b hsp hpi
    exact ⟨by simp [CredentialsTs.validateToken, hsp, hpi],
      by simp [CredentialsTs.validateToken, hsp, hpi],
      by simp [Part000.validateToken, hsp, hpi],
      by simp [Part000.validateToken, hsp, hpi]⟩

/-- C5 witness: the amended malformed-input behaviour evaluated at the
concrete inputs `"x"` (one segment) and `"t.x"` (second segment with no
integer prefix). -/
theorem validateToken_malformed_rejects_without_fetch_witness :
    ((CredentialsTs.validateToken idHasher "u1" .SessionToken ['x'] 1 emptyStore).trace = []) ∧
    ((Part000.validateToken idHasher .SessionToken ['t', '.', 'x'] none emptyStore).trace = []) :=
  ⟨((validateToken_malformed_rejects_without_fetch idHasher "u1" .SessionToken ['x'] 1
      none emptyStore).1 (by decide)).2.1,
   (((validateToken_malformed_rejects_without_fetch idHasher "u1" .SessionToken
      ['t', '.', 'x'] 1 none emptyStore).2 ['t'] ['x'] (by decide) (by decide)).2.2.2)⟩

/-- C6: round-trip — for any drawn bytes (length ≥ 1) the bearer string
minted by `generateAndSaveToken` (either version) splits on `'.'` into
exactly two parts; the first part is the raw base64url token whose hash
is the stored secret of the row just inserted, and the second part
parses back (JS `parseInt`) to that row's id. -/
theorem generateAndSaveToken_roundTrip (h : Hasher) (sr : CredentialType → Nat)
    (bytes : List Nat) (now : Int) (userId : String) (ttype : TokenType)
    (maxAgeMinutes : Option Int) (opts : Option Nat) (s : Store)
    (_hlen : 1 ≤ bytes.length) :
    (splitOnDot (CredentialsTs.generateAndSaveToken h sr bytes now userId ttype
        maxAgeMinutes opts s).result
      = [base64urlEncode bytes, natDigits s.nextId]) ∧
    (splitOnDot (Part000.generateAndSaveToken h sr bytes now userId ttype
        maxAgeMinutes opts s).result
      = [base64urlEncode bytes, natDigits s.nextId]) ∧
    parseInt (natDigits s.nextId) = some (s.nextId : Int) ∧
    (∃ c ∈ (CredentialsTs.generateAndSaveToken h sr bytes now userId ttype
        maxAgeMinutes opts s).store.rows,
      c.id = s.nextId ∧ c.secret = h.hash (base64urlEncode bytes) (sr ttype.toCred)) ∧
    (∃ c ∈ (Part000.generateAndSaveToken h sr bytes now userId ttype
        maxAgeMinutes opts s).store.rows,
      c.id = s.nextId ∧ c.secret = h.hash (base64urlEncode bytes) (sr ttype.toCred)) := by
  have hsplit : splitOnDot (base64urlEncode bytes ++ '.' :: natDigits s.nextId)
      = [base64urlEncode bytes, natDigits s.nextId] := by
    rw [splitOnDot_append _ _ (noDot_base64 bytes),
        splitOnDot_no_dot _ (natDigits_no_dot s.nextId)]
  refine ⟨hsplit, hsplit, parseInt_natDigits s.nextId, ?_, ?_⟩
  · refine ⟨{ id := s.nextId, created_at := now, user_id := userId,
              secret := h.hash (base64urlEncode bytes) (sr ttype.toCred),
              type := ttype.toCred, expires_at := expiryCT now maxAgeMinutes },
      ?_, rfl, rfl⟩
    have hrows : (CredentialsTs.generateAndSaveToken h sr bytes now userId ttype
        maxAgeMinutes opts s).store.rows
        = s.rows ++ [{ id := s.nextId, created_at := now, user_id := userId,
                       secret := h.hash (base64urlEncode bytes) (sr ttype.toCred),
                       type := ttype.toCred, expires_at := expiryCT now maxAgeMinutes }] := rfl
    rw [hrows]
    exact List.mem_append_right _ (List.mem_singleton_self _)
  · refine ⟨{ id := s.nextId, created_at := now, user_id := userId,
              secret := h.hash (base64urlEncode bytes) (sr ttype.toCred),
              type := ttype.toCred, expires_at := expiryP0 now maxAgeMinutes },
      ?_, rfl, rfl⟩
    have hrows : (Part000.generateAndSaveToken h sr bytes now userId ttype
        maxAgeMinutes opts s).store.rows
        = s.rows ++ [{ id := s.nextId, created_at := now, user_id := userId,
                       secret := h.hash (base64urlEncode bytes) (sr ttype.toCred),
                       type := ttype.toCred, expires_at := expiryP0 now maxAgeMinutes }] := rfl
    rw [hrows]
    exact List.mem_append_right _ (List.mem_singleton_self _)

/-- C6 witness: the round trip at the one-byte draw `[0]` into the empty
table (serial id `1`). -/
theorem generateAndSaveToken_roundTrip_witness :
    (splitOnDot (CredentialsTs.generateAndSaveToken idHasher defaultSaltRounds [0] 0 "u1"
        .SessionToken (some 1) none emptyStore).result
      = [base64urlEncode [0], natDigits 1]) ∧
    (splitOnDot (Part000.generateAndSaveToken idHasher defaultSaltRounds [0] 0 "u1"
        .SessionToken (some 1) none emptyStore).result
      = [base64urlEncode [0], natDigits 1]) ∧
    parseInt (natDigits 1) = some (1 : Int) ∧
    (∃ c ∈ (CredentialsTs.generateAndSaveToken idHasher defaultSaltRounds [0] 0 "u1"
        .SessionToken (some 1) none emptyStore).store.rows,
      c.id = 1 ∧ c.secret = idHasher.hash (base64urlEncode [0]) (defaultSaltRounds TokenType.SessionToken.toCred)) ∧
    (∃ c ∈ (Part000.generateAndSaveToken idHasher defaultSaltRounds [0] 0 "u1"
        .SessionToken (some 1) none emptyStore).store.rows,
      c.id = 1 ∧ c.secret = idHasher.hash (base64urlEncode [0]) (defaultSaltRounds TokenType.SessionToken.toCred)) :=
  generateAndSaveToken_roundTrip idHasher defaultSaltRounds [0] 0 "u1" .SessionToken
    (some 1) none emptyStore (by decide)

/-- C7: `validateCredential` (modelled from the spec, absent from `src/`)
accepts exactly when at least one non-expired credential of the given
`user_id` and `type` hash-matches the presented plaintext — so any of k
live matching secrets succeeds, an unrelated plaintext fails, and once
no matching row is live every plaintext fails. -/
theorem validateCredential_any_live_match (h : Hasher) (now : Int)
    (userId : String) (type : CredentialType) (plaintext : Str) (s : Store) :
    validateCredential h now userId type plaintext s = true ↔
    ∃ c ∈ s.rows, c.user_id = userId ∧ c.type = type ∧ isLive now c = true ∧
      h.compare plaintext c.secret = true := by
  unfold validateCredential
  rw [List.any_eq_true]
  constructor
  · rintro ⟨c, hc, hcmp⟩
    rw [List.mem_filter] at hc
    obtain ⟨hmem, hcond⟩ := hc
    simp only [Bool.and_eq_true, decide_eq_true_eq] at hcond
    exact ⟨c, hmem, hcond.1.1, hcond.1.2, hcond.2, hcmp⟩
  · rintro ⟨c, hmem, h1, h2, h3, h4⟩
    refine ⟨c, ?_, h4⟩
    rw [List.mem_filter]
    exact ⟨hmem, by simp [h1, h2, h3]⟩

/-- C8: every row handed to `save` by the minting operations of either
version carries as its `secret` the hash of the operation's plaintext
(the password, resp. the raw base64url token) at the cost configured for
the row's type — the raw plaintext itself is never the stored value. -/
theorem secrets_always_hashed (h : Hasher) (sr : CredentialType → Nat)
    (now : Int) (password : Str) (userId : String) (expiresAt : Option Int)
    (tx : Nat) (bytes : List Nat) (ttype : TokenType)
    (maxAgeMinutes : Option Int) (opts : Option Nat) (s : Store) :
    (∀ row t, Effect.save row t ∈ (CredentialsTs.setPassword h sr now password userId expiresAt tx s).trace →
      row.secret = h.hash password (sr CredentialType.Password) ∧ row.type = CredentialType.Password) ∧
    (∀ row t, Effect.save row t ∈ (Part000.setPassword h sr now password userId expiresAt tx s).trace →
      row.secret = h.hash password (sr CredentialType.Password) ∧ row.type = CredentialType.Password) ∧
    (∀ row t, Effect.save row t ∈ (CredentialsTs.generateAndSaveToken h sr bytes now userId ttype maxAgeMinutes opts s).trace →
      row.secret = h.hash (base64urlEncode bytes) (sr ttype.toCred) ∧ row.type = ttype.toCred) ∧
    (∀ row t, Effect.save row t ∈ (Part000.generateAndSaveToken h sr bytes now userId ttype maxAgeMinutes opts s).trace →
      row.secret = h.hash (base64urlEncode bytes) (sr ttype.toCred) ∧ row.type = ttype.toCred) := by
  refine ⟨?_, ?_, ?_, ?_⟩
  · intro row t hmem
    simp [CredentialsTs.setPassword] at hmem
    obtain ⟨hrow, -⟩ := hmem
    subst hrow
    exact ⟨rfl, rfl⟩
  · intro row t hmem
    simp [Part000.setPassword] at hmem
    obtain ⟨hrow, -⟩ := hmem
    subst hrow
    exact ⟨rfl, rfl⟩
  · intro row t hmem
    simp [CredentialsTs.generateAndSaveToken, CredentialsTs.generateToken] at hmem
    obtain ⟨hrow, -⟩ := hmem
    subst hrow
    exact ⟨rfl, rfl⟩
  · intro row t hmem
    simp [Part000.generateAndSaveToken, Part000.generateToken] at hmem
    obtain ⟨hrow, -⟩ := hmem
    subst hrow
    exact ⟨rfl, rfl⟩

/-- C8 witness: the hashed-secret invariant at a concrete password save
(`setPassword` of `Credentials.ts` with password `"p"`, whose save effect
stores `idHasher.hash "p" 10 = "p"`). -/
theorem secrets_always_hashed_witness :
    ({ created_at := 0, user_id := "u1", type := CredentialType.Password,
       secret := ['p'], expires_at := none } : NewCredential).secret
      = idHasher.hash ['p'] (defaultSaltRounds CredentialType.Password) ∧
    ({ created_at := 0, user_id := "u1", type := CredentialType.Password,
       secret := ['p'], expires_at := none } : NewCredential).type = CredentialType.Password :=
  (secrets_always_hashed idHasher defaultSaltRounds 0 ['p'] "u1" none 1 [0]
    .SessionToken (some 1) none emptyStore).1
    { created_at := 0, user_id := "u1", type := CredentialType.Password,
      secret := ['p'], expires_at := none } none (by decide)

/-- C9: starting from the empty table, after any sequence of completed
operations (both versions' mint and validation calls) every user has at
most one `Password`-type row, because `setPassword` hard-deletes the
user's password rows before inserting the fresh one. -/
theorem at_most_one_password_per_user (h : Hasher) (sr : CredentialType → Nat)
    (ops : List Op) (u : String) :
    passwordCount (ops.foldl (runOp h sr) emptyStore) u ≤ 1 :=
  passwordCount_foldl h sr ops emptyStore
    (fun _ => by simp [passwordCount, emptyStore]) u

/-- C10: each of the eight validation entry points (four per source
version) returns the table unchanged and its trace contains no insert,
update, or delete — validation only fetches and compares. -/
theorem validation_leaves_table_unchanged (h : Hasher) (u : String)
    (password : Str) (ttype : TokenType) (token : Str) (tx : Nat)
    (o : Option Nat) (s : Store) :
    ((CredentialsTs.validatePassword h u password o s).store = s ∧
      (CredentialsTs.validatePassword h u password o s).trace.filter Effect.isMutation = []) ∧
    ((CredentialsTs.validatePasswordOrThrow h u password o s).store = s ∧
      (CredentialsTs.validatePasswordOrThrow h u password o s).trace.filter Effect.isMutation = []) ∧
    ((CredentialsTs.validateToken h u ttype token tx s).store = s ∧
      (CredentialsTs.validateToken h u ttype token tx s).trace.filter Effect.isMutation = []) ∧
    ((CredentialsTs.validateTokenOrThrow h u ttype token tx s).store = s ∧
      (CredentialsTs.validateTokenOrThrow h u ttype token tx s).trace.filter Effect.isMutation = []) ∧
    ((Part000.validatePassword h u password o s).store = s ∧
      (Part000.validatePassword h u password o s).trace.filter Effect.isMutation = []) ∧
    ((Part000.validatePasswordOrThrow h u password o s).store = s ∧
      (Part000.validatePasswordOrThrow h u password o s).trace.filter Effect.isMutation = []) ∧
    ((Part000.validateToken h ttype token o s).store = s ∧
      (Part000.validateToken h ttype token o s).trace.filter Effect.isMutation = []) ∧
    ((Part000.validateTokenOrThrow h ttype token o s).store = s ∧
      (Part000.validateTokenOrThrow h ttype token o s).trace.filter Effect.isMutation = []) :=
  ⟨CT_validatePassword_frame h u password o s,
   CT_validatePasswordOrThrow_frame h u password o s,
   CT_validateToken_frame h u ttype token tx s,
   CT_validateTokenOrThrow_frame h u ttype token tx s,
   P0_validatePassword_frame h u password o s,
   P0_validatePasswordOrThrow_frame h u password o s,
   P0_validateToken_frame h ttype token o s,
   P0_validateTokenOrThrow_frame h ttype token o s⟩
